import Mathlib

/-!
Shallow embedding of the EHR-sequence training harness
(`src/task.py`, `src/TLSTM/test_tlstm.py`, `src/mix_features/task.py`).

The driver scripts are modelled at two levels:
* an event-trace level: each script-level function is translated into a
  Lean function producing the `List Event` of observable actions it
  performs (seeding, loading, training steps, metric logging, saving),
  with Python exceptions appearing as terminal error events;
* a value level for `_eval` in `src/task.py`, whose return value the
  claims talk about.

Numeric tensor contents and the neural-network forward pass are
abstracted: the model is a function parameter, and floating-point values
do not appear (no claim is about them).
-/

namespace SeqEHR

/-- The three evaluation metrics computed by the harness
    (`accuracy_score`, `roc_auc_score` micro, `roc_auc_score` macro). -/
inductive Metric where
  | accuracy
  | aucMicro
  | aucMacro
deriving DecidableEq, Repr

/-- Observable actions of the driver scripts, in program order.
    Python exceptions are modelled as terminal error events. -/
inductive Event where
  /-- `random.seed(n)` -/
  | seedRandom (n : Nat)
  /-- `np.random.seed(n)` -/
  | seedNumpy (n : Nat)
  /-- `torch.manual_seed(n)` -/
  | seedTorch (n : Nat)
  /-- `torch.cuda.manual_seed_all(n)` -/
  | seedCudaAll (n : Nat)
  /-- a failed `assert` raises `AssertionError` -/
  | assertionError
  /-- `raise ImportError(...)` when apex is unavailable under fp16 -/
  | importError
  /-- a `TypeError`/`ValueError` raised when `None` flows into
      unpacking or metric computation -/
  | typeError
  /-- `args.logger.info(s)` -/
  | logInfo (s : String)
  /-- construction of the optimizer (`AdamW` in task.py, `Adam` in
      test_tlstm.py) -/
  | optimizerSetup (name : String)
  /-- `amp.initialize(model, optimizer, ...)` -/
  | apexInit
  /-- one training step (forward, backward, optimizer step) on data
      point `idx` during epoch `epoch` -/
  | process (epoch idx : Nat)
  /-- the per-epoch `training loss` log line -/
  | logLoss (epoch : Nat)
  /-- one evaluation forward pass on data point `idx` -/
  | evalProcess (idx : Nat)
  /-- logging of one computed metric -/
  | logMetric (m : Metric)
  /-- `pkl_load(path)` -/
  | loadPickle (path : String)
  /-- `TLSTMConfig(...)` construction -/
  | initConfig
  /-- `TLSTM(config=...)` construction / `SeqEHRTrainer(args)` -/
  | initModel
  /-- `pkl_load` of the saved config in the test branch -/
  | loadConfigEv
  /-- `model.load_state_dict(torch.load(...))` -/
  | loadModelEv
  /-- `torch.save(model.state_dict(), ...)` -/
  | saveModelEv
  /-- `pkl_save(config, ...)` -/
  | saveConfigEv
  /-- `SeqEHRDataLoader(...).create_data_loader()` -/
  | createDataLoader
  /-- `task_runner.train(train_data_loader)` (mix_features delegates
      the training loop to the trainer object) -/
  | trainerTrain
  /-- `task_runner.predict(test_data_loader, ...)` -/
  | trainerPredict
deriving DecidableEq, Repr

/-- `check_inputs` from `src/task.py` lines 48-55: collect the lengths
    of all inputs and assert `len(set(llen)) == 1`. -/
def checkInputs (llen : List Nat) : Bool :=
  llen.toFinset.card == 1

/-- The chained length assertion used by `src/TLSTM/test_tlstm.py`
    (`len(features) == len(times) == len(labels)`). -/
def checkTlstm (nF nT nL : Nat) : Bool :=
  nF == nT && nT == nL

/-- `checkInputs` on three lengths passes exactly when they are all equal. -/
theorem checkInputs_three (a b c : Nat) :
    checkInputs [a, b, c] = true ↔ a = b ∧ b = c := by
  unfold checkInputs
  rw [beq_iff_eq]
  constructor
  · intro h
    obtain ⟨x, hx⟩ := Finset.card_eq_one.mp h
    have ha : a ∈ ([a, b, c] : List Nat).toFinset := by simp
    have hb : b ∈ ([a, b, c] : List Nat).toFinset := by simp
    have hc : c ∈ ([a, b, c] : List Nat).toFinset := by simp
    rw [hx, Finset.mem_singleton] at ha hb hc
    omega
  · rintro ⟨rfl, rfl⟩
    simp

/-- The chained check of test_tlstm.py agrees with equality of the
    three lengths. -/
theorem checkTlstm_iff (a b c : Nat) :
    checkTlstm a b c = true ↔ a = b ∧ b = c := by
  unfold checkTlstm
  simp [Bool.and_eq_true, beq_iff_eq]

/-! ## Value-level model of `_eval` in `src/task.py` (lines 16-45)

`_eval` accumulates, per data batch, the gold labels, the softmaxed
logits, the argmax of the labels and the model predictions.  Label
batches are 2-D integer arrays (rows = samples, columns = classes);
logits and predictions come from the abstract model parameter. -/

/-- `np.argmax` on one row: index of the first occurrence of the
    maximal entry (numpy's tie-breaking). -/
def argmaxAux : List Int → Nat → Nat → Int → Nat
  | [], _, best, _ => best
  | x :: xs, i, best, bv =>
      if bv < x then argmaxAux xs (i + 1) i x
      else argmaxAux xs (i + 1) best bv

/-- `np.argmax(row)` for a non-empty row; numpy raises on an empty
    argument, which never happens here (labels have ≥ 1 class). -/
def npArgmaxRow : List Int → Nat
  | [] => 0
  | x :: xs => argmaxAux xs 1 0 x

/-- The tuple `(y_trues, y_preds, gs_labels, pred_labels)` returned by
    `_eval` in `src/task.py` line 45. -/
structure EvalResult where
  yTrues : List Nat
  yPreds : List Nat
  gsLabels : List (List Int)
  predLabels : List (List Int)
deriving DecidableEq, Repr

/-- Errors raised by the script-level functions. -/
inductive TaskError where
  | assertionError
  | importError
  | typeError
deriving DecidableEq, Repr

/-- `_eval` from `src/task.py` lines 16-45, at the level of its return
    value.  `model f t l` abstracts the forward pass, returning the
    softmaxed logits (`pred_labels` rows) and `y_pred`.  The `return`
    statement at line 45 is indented inside the `for data_idx in
    data_idxs` loop, so it executes at the end of the FIRST iteration;
    when the loop body never runs (no data) the function falls through
    and returns `None`. -/
def evalTask {F T : Type} (model : F → T → List (List Int) → List (List Int) × List Nat)
    (features : List F) (times : List T) (labels : List (List (List Int))) :
    Except TaskError (Option EvalResult) :=
  if checkInputs [features.length, times.length, labels.length] = false then
    .error .assertionError
  else
    match features, times, labels with
    | f :: _, t :: _, l :: _ =>
        -- first loop iteration: data_idx = 0; the branch `y_preds is
        -- None` is taken, then the loop returns
        let r := model f t l
        .ok (some ⟨l.map npArgmaxRow, r.2, l, r.1⟩)
    | _, _, _ => .ok none

/-! ## Trace-level model of `src/task.py` -/

/-- `test` from `src/task.py` lines 116-123 as an event trace: it calls
    `_eval` (which re-checks the input lengths), then computes and logs
    accuracy, micro AUC and macro AUC in that order.  When the dataset
    is empty `_eval` returns `None` and the tuple unpacking at line 117
    raises. -/
def testTask (nF nT nL : Nat) : List Event :=
  if checkInputs [nF, nT, nL] = false then [.assertionError]
  else if nF = 0 then [.typeError]
  else
    -- `_eval` returns during its first loop iteration (line 45), so a
    -- single evaluation forward pass happens
    [.evalProcess 0,
     .logMetric .accuracy, .logMetric .aucMicro, .logMetric .aucMacro]

/-- `train` from `src/task.py` lines 58-113 as an event trace.
    `shuffled e` is the content of `data_idxs` after the in-place
    `np.random.shuffle` of epoch `e` (a permutation of
    `range(len(features))`).  Control flow: length assertion, AdamW
    construction, the fp16/apex import guard, the epoch loop (one
    training step per data point, then a loss log line), and finally
    `test` on the training data. -/
def trainTask (fp16 apexAvailable : Bool) (epochs nF nT nL : Nat)
    (shuffled : Nat → List Nat) : List Event :=
  if checkInputs [nF, nT, nL] = false then [.assertionError]
  else
    let body : List Event :=
      ((List.range epochs).flatMap fun e =>
        ((shuffled e).map fun i => Event.process e i) ++ [.logLoss e]) ++
      testTask nF nT nL
    .optimizerSetup "AdamW" ::
      (if fp16 then
        (if apexAvailable then .apexInit :: body else [.importError])
      else body)

/-- model types accepted by the assertion in `src/task.py` lines
    134-136. -/
def supportedTask (m : String) : Bool :=
  ["lstm", "tlstm", "clstm", "ctlstm"].contains m

/-- The seeding prologue shared by all three `main` functions:
    `random.seed(13)`, `np.random.seed(13)`, `torch.manual_seed(13)`,
    and `torch.cuda.manual_seed_all(13)` when CUDA is available. -/
def seedEvents (cuda : Bool) : List Event :=
  [.seedRandom 13, .seedNumpy 13, .seedTorch 13] ++
    (if cuda then [.seedCudaAll 13] else [])

/-- `main` from `src/task.py` lines 126-145 as an event trace: seeding,
    the model-type assertion, then — under `do_train` / `do_test` —
    only the two `logger.info` calls.  No data is loaded, no model is
    built, no training happens and nothing is saved. -/
def mainTask (modelType : String) (doTrain doTest cuda : Bool) : List Event :=
  seedEvents cuda ++
    (if supportedTask modelType = false then [.assertionError]
     else
       (if doTrain then [.logInfo "start training..."] else []) ++
       (if doTest then [.logInfo "start test..."] else []))

/-! ## Trace-level model of `src/TLSTM/test_tlstm.py` -/

/-- `_eval` from `src/TLSTM/test_tlstm.py` lines 19-63 as an event
    trace: chained length assertion, one evaluation forward pass per
    data batch (here the loop has no early return), then accuracy,
    micro AUC and macro AUC are computed and logged in that order.
    With no data the accumulators stay `None` and `accuracy_score`
    raises at line 58. -/
def evalTlstm (nF nT nL : Nat) : List Event :=
  if checkTlstm nF nT nL = false then [.assertionError]
  else if nF = 0 then [.typeError]
  else
    ((List.range nF).map fun i => Event.evalProcess i) ++
    [.logMetric .accuracy, .logMetric .aucMicro, .logMetric .aucMacro]

/-- `train` from `src/TLSTM/test_tlstm.py` lines 66-128 as an event
    trace: chained length assertion, Adam construction, the
    fp16/apex guard, the epoch loop (the `np.random.shuffle` call at line
    102 is commented out, so data points are visited in index order),
    and finally `_eval` on the training data. -/
def trainTlstm (fp16 apexAvailable : Bool) (epochs nF nT nL : Nat) : List Event :=
  if checkTlstm nF nT nL = false then [.assertionError]
  else
    let body : List Event :=
      ((List.range epochs).flatMap fun e =>
        ((List.range nF).map fun i => Event.process e i) ++ [.logLoss e]) ++
      evalTlstm nF nT nL
    .optimizerSetup "Adam" ::
      (if fp16 then
        (if apexAvailable then .apexInit :: body else [.importError])
      else body)

/-- `test` from `src/TLSTM/test_tlstm.py` lines 130-138: the chained
    length assertion again, then `_eval` on the test data. -/
def testTlstm (nF nT nL : Nat) : List Event :=
  if checkTlstm nF nT nL = false then [.assertionError]
  else evalTlstm nF nT nL

/-- Events standing for a raised Python exception. -/
def isErrorEvent : Event → Bool
  | .assertionError => true
  | .importError => true
  | .typeError => true
  | _ => false

/-- Does a trace contain a raised exception?  Used to model exception
    propagation out of `train` into `main`. -/
def hasError (tr : List Event) : Bool :=
  tr.any isErrorEvent

/-- The `do_test` branch of `main` in `src/TLSTM/test_tlstm.py` lines
    169-177: load the three test pickles, load the saved config, build
    the model, load the saved weights, then `test`. -/
def tlstmTestPart (doTest : Bool) (mF mT mL : Nat) : List Event :=
  if doTest then
    [.loadPickle "../data/tlstm_sync/data_test.pkl",
     .loadPickle "../data/tlstm_sync/elapsed_test.pkl",
     .loadPickle "../data/tlstm_sync/label_test.pkl",
     .loadConfigEv, .initModel, .loadModelEv] ++
    testTlstm mF mT mL
  else []

/-- `main` from `src/TLSTM/test_tlstm.py` lines 141-177 as an event
    trace: seeding; under `do_train` the three training pickles are
    loaded, the config and model are built, `train` runs, and — only
    if `train` did not raise — the weights and config are saved and the
    `do_test` branch can run.  `nF nT nL` (resp. `mF mT mL`) are the
    lengths of the loaded training (resp. test) data lists. -/
def mainTlstm (doTrain doTest cuda fp16 apexAvailable : Bool)
    (epochs nF nT nL mF mT mL : Nat) : List Event :=
  seedEvents cuda ++
    (if doTrain then
      let pre : List Event :=
        [.loadPickle "../data/tlstm_sync/data_train.pkl",
         .loadPickle "../data/tlstm_sync/elapsed_train.pkl",
         .loadPickle "../data/tlstm_sync/label_train.pkl",
         .initConfig, .initModel]
      let tr := trainTlstm fp16 apexAvailable epochs nF nT nL
      if hasError tr then pre ++ tr
      else pre ++ tr ++ [.saveModelEv, .saveConfigEv] ++ tlstmTestPart doTest mF mT mL
    else tlstmTestPart doTest mF mT mL)

/-! ## Trace-level model of `src/mix_features/task.py` -/

/-- model types accepted by the assertion in `src/mix_features/task.py`
    lines 20-22 (the assertion's failure message still lists all four
    names, but the asserted set has only two). -/
def supportedMix (m : String) : Bool :=
  ["clstm", "ctlstm"].contains m

/-- `main` from `src/mix_features/task.py` lines 12-51 as an event
    trace: seeding, the model-type assertion, unconditional loading of
    the train and test pickles, construction of the two data loaders
    and of the `SeqEHRTrainer`, then delegation to
    `task_runner.train` under `do_train` and `task_runner.predict`
    under `do_test`.  `main` itself saves nothing. -/
def mainMix (modelType : String) (doTrain doTest cuda : Bool)
    (trainDataPath testDataPath : String) : List Event :=
  seedEvents cuda ++
    (if supportedMix modelType = false then [.assertionError]
     else
       [.loadPickle trainDataPath, .loadPickle testDataPath,
        .createDataLoader, .createDataLoader, .initModel] ++
       (if doTrain then [.logInfo "start training...", .trainerTrain] else []) ++
       (if doTest then [.logInfo "start test...", .trainerPredict] else []))

/-! ## The elapsed-time reshape (`np.reshape`, test_tlstm.py lines 36 and 107) -/

/-- A 3-D numpy array of shape `(n, d1, d2)` with its row-major
    (C-order) flat buffer. -/
structure NpArray3 (α : Type) where
  n : Nat
  d1 : Nat
  d2 : Nat
  data : List α
deriving DecidableEq, Repr

/-- `np.reshape(a, shape)` with the default C order: the row-major
    buffer is unchanged; numpy raises `ValueError` when the requested
    shape does not match the number of elements. -/
def npReshape {α : Type} (buf : List α) (shape : List Nat) :
    Option (List Nat × List α) :=
  if buf.length = shape.prod then some (shape, buf) else none

/-- The elapsed-time reshape performed identically by the training loop
    (line 107) and the evaluation loop (line 36) of
    `src/TLSTM/test_tlstm.py`:
    `time = np.reshape(time, [time.shape[0], time.shape[2], time.shape[1]])`. -/
def reshapeTime {α : Type} (t : NpArray3 α) : Option (List Nat × List α) :=
  npReshape t.data [t.n, t.d2, t.d1]

/-! ## The `config_path` default (all three `__main__` blocks) -/

/-- `if args.config_path is None: args.config_path = args.model_path`
    from `src/task.py` lines 184-185, `src/TLSTM/test_tlstm.py` lines
    207-208 and `src/mix_features/task.py` lines 106-107 (there the
    model path argument is named `new_model_path`). -/
def resolveConfigPath (configPath : Option String) (modelPath : String) : String :=
  match configPath with
  | none => modelPath
  | some c => c

/-! ## Helper lemmas about the traces -/

lemma checkInputs_of_eq {a b c : Nat} (h1 : a = b) (h2 : b = c) :
    checkInputs [a, b, c] = true :=
  (checkInputs_three a b c).mpr ⟨h1, h2⟩

lemma checkTlstm_of_eq {a b c : Nat} (h1 : a = b) (h2 : b = c) :
    checkTlstm a b c = true :=
  (checkTlstm_iff a b c).mpr ⟨h1, h2⟩

lemma checkInputs_of_ne {a b c : Nat} (h : ¬(a = b ∧ b = c)) :
    checkInputs [a, b, c] = false := by
  cases hcb : checkInputs [a, b, c] with
  | false => rfl
  | true => exact absurd ((checkInputs_three a b c).mp hcb) h

lemma checkTlstm_of_ne {a b c : Nat} (h : ¬(a = b ∧ b = c)) :
    checkTlstm a b c = false := by
  cases hcb : checkTlstm a b c with
  | false => rfl
  | true => exact absurd ((checkTlstm_iff a b c).mp hcb) h

/-- Every event of an epoch loop is a training step or a loss log. -/
lemma mem_epochLoop {ev : Event} {epochs : Nat} {idxs : Nat → List Nat}
    (h : ev ∈ (List.range epochs).flatMap fun e =>
      ((idxs e).map fun i => Event.process e i) ++ [Event.logLoss e]) :
    (∃ a b, ev = Event.process a b) ∨ ∃ a, ev = Event.logLoss a := by
  rw [List.mem_flatMap] at h
  obtain ⟨a, -, h⟩ := h
  rw [List.mem_append] at h
  rcases h with h | h
  · rw [List.mem_map] at h
    obtain ⟨b, -, rfl⟩ := h
    exact .inl ⟨a, b, rfl⟩
  · rw [List.mem_singleton] at h
    exact .inr ⟨a, h⟩

/-- Case analysis on the events of `testTask` for aligned inputs. -/
lemma mem_testTask_cases {ev : Event} {nF nT nL : Nat} (h1 : nF = nT) (h2 : nT = nL)
    (h : ev ∈ testTask nF nT nL) :
    ev = .typeError ∨ ev = .evalProcess 0 ∨ ev = .logMetric .accuracy ∨
      ev = .logMetric .aucMicro ∨ ev = .logMetric .aucMacro := by
  unfold testTask at h
  rw [checkInputs_of_eq h1 h2, if_neg (by simp)] at h
  by_cases h0 : nF = 0
  · rw [if_pos h0, List.mem_singleton] at h
    exact .inl h
  · rw [if_neg h0] at h
    simp only [List.mem_cons, List.not_mem_nil, or_false] at h
    tauto

/-- Case analysis on the events of `evalTlstm` for aligned inputs. -/
lemma mem_evalTlstm_cases {ev : Event} {nF nT nL : Nat} (h1 : nF = nT) (h2 : nT = nL)
    (h : ev ∈ evalTlstm nF nT nL) :
    ev = .typeError ∨ (∃ i, ev = .evalProcess i) ∨ ev = .logMetric .accuracy ∨
      ev = .logMetric .aucMicro ∨ ev = .logMetric .aucMacro := by
  unfold evalTlstm at h
  rw [checkTlstm_of_eq h1 h2, if_neg (by simp)] at h
  by_cases h0 : nF = 0
  · rw [if_pos h0, List.mem_singleton] at h
    exact .inl h
  · rw [if_neg h0, List.mem_append] at h
    rcases h with h | h
    · rw [List.mem_map] at h
      obtain ⟨i, -, rfl⟩ := h
      exact .inr (.inl ⟨i, rfl⟩)
    · simp only [List.mem_cons, List.not_mem_nil, or_false] at h
      tauto

/-- Case analysis on the events of `trainTask` for aligned inputs:
    the optimizer setup, the apex events (only under fp16), the
    training steps and loss logs, or an event of the final `test`. -/
lemma mem_trainTask_cases {ev : Event} {fp16 apex : Bool} {epochs nF nT nL : Nat}
    {sh : Nat → List Nat} (h1 : nF = nT) (h2 : nT = nL)
    (h : ev ∈ trainTask fp16 apex epochs nF nT nL sh) :
    ev = .optimizerSetup "AdamW" ∨
      (fp16 = true ∧ (ev = .apexInit ∨ ev = .importError)) ∨
      (∃ a b, ev = Event.process a b) ∨ (∃ a, ev = Event.logLoss a) ∨
      ev ∈ testTask nF nT nL := by
  unfold trainTask at h
  rw [checkInputs_of_eq h1 h2, if_neg (by simp)] at h
  rw [List.mem_cons] at h
  rcases h with rfl | h
  · exact .inl rfl
  have hbody : ev ∈ ((List.range epochs).flatMap fun e =>
        ((sh e).map fun i => Event.process e i) ++ [Event.logLoss e]) ++
        testTask nF nT nL →
      (∃ a b, ev = Event.process a b) ∨ (∃ a, ev = Event.logLoss a) ∨
        ev ∈ testTask nF nT nL := by
    intro hb
    rw [List.mem_append] at hb
    rcases hb with hb | hb
    · rcases mem_epochLoop hb with hb | hb
      · exact .inl hb
      · exact .inr (.inl hb)
    · exact .inr (.inr hb)
  cases fp16 with
  | false =>
      rw [if_neg (by simp)] at h
      rcases hbody h with hb | hb | hb
      · exact .inr (.inr (.inl hb))
      · exact .inr (.inr (.inr (.inl hb)))
      · exact .inr (.inr (.inr (.inr hb)))
  | true =>
      rw [if_pos rfl] at h
      cases apex with
      | false =>
          rw [if_neg (by simp), List.mem_singleton] at h
          exact .inr (.inl ⟨rfl, .inr h⟩)
      | true =>
          rw [if_pos rfl, List.mem_cons] at h
          rcases h with rfl | h
          · exact .inr (.inl ⟨rfl, .inl rfl⟩)
          · rcases hbody h with hb | hb | hb
            · exact .inr (.inr (.inl hb))
            · exact .inr (.inr (.inr (.inl hb)))
            · exact .inr (.inr (.inr (.inr hb)))

/-- Case analysis on the events of `trainTlstm` for aligned inputs. -/
lemma mem_trainTlstm_cases {ev : Event} {fp16 apex : Bool} {epochs nF nT nL : Nat}
    (h1 : nF = nT) (h2 : nT = nL)
    (h : ev ∈ trainTlstm fp16 apex epochs nF nT nL) :
    ev = .optimizerSetup "Adam" ∨
      (fp16 = true ∧ (ev = .apexInit ∨ ev = .importError)) ∨
      (∃ a b, ev = Event.process a b) ∨ (∃ a, ev = Event.logLoss a) ∨
      ev ∈ evalTlstm nF nT nL := by
  unfold trainTlstm at h
  rw [checkTlstm_of_eq h1 h2, if_neg (by simp)] at h
  rw [List.mem_cons] at h
  rcases h with rfl | h
  · exact .inl rfl
  have hbody : ev ∈ ((List.range epochs).flatMap fun e =>
        ((List.range nF).map fun i => Event.process e i) ++ [Event.logLoss e]) ++
        evalTlstm nF nT nL →
      (∃ a b, ev = Event.process a b) ∨ (∃ a, ev = Event.logLoss a) ∨
        ev ∈ evalTlstm nF nT nL := by
    intro hb
    rw [List.mem_append] at hb
    rcases hb with hb | hb
    · rcases mem_epochLoop hb with hb | hb
      · exact .inl hb
      · exact .inr (.inl hb)
    · exact .inr (.inr hb)
  cases fp16 with
  | false =>
      rw [if_neg (by simp)] at h
      rcases hbody h with hb | hb | hb
      · exact .inr (.inr (.inl hb))
      · exact .inr (.inr (.inr (.inl hb)))
      · exact .inr (.inr (.inr (.inr hb)))
  | true =>
      rw [if_pos rfl] at h
      cases apex with
      | false =>
          rw [if_neg (by simp), List.mem_singleton] at h
          exact .inr (.inl ⟨rfl, .inr h⟩)
      | true =>
          rw [if_pos rfl, List.mem_cons] at h
          rcases h with rfl | h
          · exact .inr (.inl ⟨rfl, .inl rfl⟩)
          · rcases hbody h with hb | hb | hb
            · exact .inr (.inr (.inl hb))
            · exact .inr (.inr (.inr (.inl hb)))
            · exact .inr (.inr (.inr (.inr hb)))

lemma assertionError_not_mem_testTask {nF nT nL : Nat} (h1 : nF = nT) (h2 : nT = nL) :
    Event.assertionError ∉ testTask nF nT nL := by
  intro h
  rcases mem_testTask_cases h1 h2 h with h | h | h | h | h <;> exact Event.noConfusion h

lemma assertionError_not_mem_evalTlstm {nF nT nL : Nat} (h1 : nF = nT) (h2 : nT = nL) :
    Event.assertionError ∉ evalTlstm nF nT nL := by
  intro h
  rcases mem_evalTlstm_cases h1 h2 h with h | ⟨i, h⟩ | h | h | h <;> exact Event.noConfusion h

lemma assertionError_not_mem_testTlstm {nF nT nL : Nat} (h1 : nF = nT) (h2 : nT = nL) :
    Event.assertionError ∉ testTlstm nF nT nL := by
  unfold testTlstm
  rw [checkTlstm_of_eq h1 h2, if_neg (by simp)]
  exact assertionError_not_mem_evalTlstm h1 h2

lemma assertionError_not_mem_trainTask {fp16 apex : Bool} {epochs nF nT nL : Nat}
    {sh : Nat → List Nat} (h1 : nF = nT) (h2 : nT = nL) :
    Event.assertionError ∉ trainTask fp16 apex epochs nF nT nL sh := by
  intro h
  rcases mem_trainTask_cases h1 h2 h with h | ⟨-, h | h⟩ | ⟨a, b, h⟩ | ⟨a, h⟩ | h
  · exact Event.noConfusion h
  · exact Event.noConfusion h
  · exact Event.noConfusion h
  · exact Event.noConfusion h
  · exact Event.noConfusion h
  · exact assertionError_not_mem_testTask h1 h2 h

lemma assertionError_not_mem_trainTlstm {fp16 apex : Bool} {epochs nF nT nL : Nat}
    (h1 : nF = nT) (h2 : nT = nL) :
    Event.assertionError ∉ trainTlstm fp16 apex epochs nF nT nL := by
  intro h
  rcases mem_trainTlstm_cases h1 h2 h with h | ⟨-, h | h⟩ | ⟨a, b, h⟩ | ⟨a, h⟩ | h
  · exact Event.noConfusion h
  · exact Event.noConfusion h
  · exact Event.noConfusion h
  · exact Event.noConfusion h
  · exact Event.noConfusion h
  · exact assertionError_not_mem_evalTlstm h1 h2 h

/-! ## Claim theorems -/

/-- C1: for every call to `train`, `test` or `_eval` (in `src/task.py`
    and `src/TLSTM/test_tlstm.py`), misaligned features/times/labels
    lengths make the call fail with an assertion error before any data
    point is processed (the trace is exactly the assertion failure, and
    `_eval` returns the assertion error instead of a value), while
    aligned lengths pass the check and processing proceeds (no
    assertion error occurs in the trace, and `_eval` returns a
    value). -/
theorem C1_length_checks {F T : Type}
    (model : F → T → List (List Int) → List (List Int) × List Nat)
    (features : List F) (times : List T) (labels : List (List (List Int)))
    (fp16 apex : Bool) (epochs nF nT nL : Nat) (sh : Nat → List Nat) :
    (¬(nF = nT ∧ nT = nL) →
      trainTask fp16 apex epochs nF nT nL sh = [.assertionError] ∧
      testTask nF nT nL = [.assertionError] ∧
      trainTlstm fp16 apex epochs nF nT nL = [.assertionError] ∧
      testTlstm nF nT nL = [.assertionError] ∧
      evalTlstm nF nT nL = [.assertionError]) ∧
    (¬(features.length = times.length ∧ times.length = labels.length) →
      evalTask model features times labels = .error .assertionError) ∧
    ((nF = nT ∧ nT = nL) →
      Event.assertionError ∉ trainTask fp16 apex epochs nF nT nL sh ∧
      Event.assertionError ∉ testTask nF nT nL ∧
      Event.assertionError ∉ trainTlstm fp16 apex epochs nF nT nL ∧
      Event.assertionError ∉ testTlstm nF nT nL ∧
      Event.assertionError ∉ evalTlstm nF nT nL) ∧
    ((features.length = times.length ∧ times.length = labels.length) →
      ∃ r, evalTask model features times labels = .ok r) := by
  refine ⟨?_, ?_, ?_, ?_⟩
  · intro h
    have hci := checkInputs_of_ne h
    have hct := checkTlstm_of_ne h
    refine ⟨?_, ?_, ?_, ?_, ?_⟩
    · unfold trainTask
      rw [hci, if_pos rfl]
    · unfold testTask
      rw [hci, if_pos rfl]
    · unfold trainTlstm
      rw [hct, if_pos rfl]
    · unfold testTlstm
      rw [hct, if_pos rfl]
    · unfold evalTlstm
      rw [hct, if_pos rfl]
  · intro h
    have hci := checkInputs_of_ne h
    unfold evalTask
    rw [hci, if_pos rfl]
  · rintro ⟨h1, h2⟩
    exact ⟨assertionError_not_mem_trainTask h1 h2,
           assertionError_not_mem_testTask h1 h2,
           assertionError_not_mem_trainTlstm h1 h2,
           assertionError_not_mem_testTlstm h1 h2,
           assertionError_not_mem_evalTlstm h1 h2⟩
  · rintro ⟨h1, h2⟩
    have hci := checkInputs_of_eq h1 h2
    unfold evalTask
    rw [hci, if_neg (by simp)]
    cases features <;> cases times <;> cases labels <;> exact ⟨_, rfl⟩

/-- Witness for C1 at concrete inputs: lengths (1, 2, 3) trigger the
    assertion-error trace, lengths (1, 1, 1) pass the check. -/
theorem C1_length_checks_witness :
    trainTask false false 1 1 2 3 (fun _ => [0]) = [Event.assertionError] ∧
    Event.assertionError ∉ trainTask false false 1 1 1 1 (fun _ => [0]) :=
  ⟨((C1_length_checks (fun (_ : Unit) (_ : Unit) _ => ([], [])) [] [] []
      false false 1 1 2 3 (fun _ => [0])).1 (by decide)).1,
   (((C1_length_checks (fun (_ : Unit) (_ : Unit) _ => ([], [])) [] [] []
      false false 1 1 1 1 (fun _ => [0])).2.2.1) ⟨rfl, rfl⟩).1⟩

/-- C4: with aligned inputs, a `train` call under `args.fp16` and with
    apex unavailable raises `ImportError` right after the optimizer
    setup — before any training step — in both `src/task.py` and
    `src/TLSTM/test_tlstm.py`; without `args.fp16` no apex
    initialization is attempted and no import error can occur. -/
theorem C4_fp16_apex (apex : Bool) (epochs nF nT nL : Nat) (sh : Nat → List Nat)
    (h1 : nF = nT) (h2 : nT = nL) :
    (trainTask true false epochs nF nT nL sh =
       [.optimizerSetup "AdamW", .importError] ∧
     trainTlstm true false epochs nF nT nL =
       [.optimizerSetup "Adam", .importError]) ∧
    (Event.importError ∉ trainTask false apex epochs nF nT nL sh ∧
     Event.apexInit ∉ trainTask false apex epochs nF nT nL sh ∧
     Event.importError ∉ trainTlstm false apex epochs nF nT nL ∧
     Event.apexInit ∉ trainTlstm false apex epochs nF nT nL) := by
  refine ⟨⟨?_, ?_⟩, ?_, ?_, ?_, ?_⟩
  · unfold trainTask
    rw [checkInputs_of_eq h1 h2]
    rfl
  · unfold trainTlstm
    rw [checkTlstm_of_eq h1 h2]
    rfl
  · intro h
    rcases mem_trainTask_cases h1 h2 h with h | ⟨hf, -⟩ | ⟨a, b, h⟩ | ⟨a, h⟩ | h
    · exact Event.noConfusion h
    · exact Bool.noConfusion hf
    · exact Event.noConfusion h
    · exact Event.noConfusion h
    · rcases mem_testTask_cases h1 h2 h with h | h | h | h | h <;> exact Event.noConfusion h
  · intro h
    rcases mem_trainTask_cases h1 h2 h with h | ⟨hf, -⟩ | ⟨a, b, h⟩ | ⟨a, h⟩ | h
    · exact Event.noConfusion h
    · exact Bool.noConfusion hf
    · exact Event.noConfusion h
    · exact Event.noConfusion h
    · rcases mem_testTask_cases h1 h2 h with h | h | h | h | h <;> exact Event.noConfusion h
  · intro h
    rcases mem_trainTlstm_cases h1 h2 h with h | ⟨hf, -⟩ | ⟨a, b, h⟩ | ⟨a, h⟩ | h
    · exact Event.noConfusion h
    · exact Bool.noConfusion hf
    · exact Event.noConfusion h
    · exact Event.noConfusion h
    · rcases mem_evalTlstm_cases h1 h2 h with h | ⟨i, h⟩ | h | h | h <;> exact Event.noConfusion h
  · intro h
    rcases mem_trainTlstm_cases h1 h2 h with h | ⟨hf, -⟩ | ⟨a, b, h⟩ | ⟨a, h⟩ | h
    · exact Event.noConfusion h
    · exact Bool.noConfusion hf
    · exact Event.noConfusion h
    · exact Event.noConfusion h
    · rcases mem_evalTlstm_cases h1 h2 h with h | ⟨i, h⟩ | h | h | h <;> exact Event.noConfusion h

/-- Witness for C4 at a concrete aligned dataset of size 3. -/
theorem C4_fp16_apex_witness :
    trainTask true false 2 3 3 3 (fun _ => [0, 1, 2]) =
      [Event.optimizerSetup "AdamW", Event.importError] ∧
    Event.importError ∉ trainTask false true 2 3 3 3 (fun _ => [0, 1, 2]) :=
  ⟨((C4_fp16_apex true 2 3 3 3 (fun _ => [0, 1, 2]) rfl rfl).1).1,
   ((C4_fp16_apex true 2 3 3 3 (fun _ => [0, 1, 2]) rfl rfl).2).1⟩

/-- C3: the elapsed-time reshape of `src/TLSTM/test_tlstm.py` (the
    identical statements at line 36 in the evaluation loop and line 107
    in the training loop) turns an array of shape `(n, d1, d2)` into an
    array of shape `(n, d2, d1)` and keeps the row-major element buffer
    unchanged. -/
theorem C3_time_reshape {α : Type} (t : NpArray3 α)
    (h : t.data.length = t.n * t.d1 * t.d2) :
    reshapeTime t = some ([t.n, t.d2, t.d1], t.data) := by
  unfold reshapeTime npReshape
  have hp : t.data.length = ([t.n, t.d2, t.d1] : List Nat).prod := by
    rw [h]
    simp only [List.prod_cons, List.prod_nil]
    ring
  rw [if_pos hp]

/-- Witness for C3 on a concrete `2 × 3 × 4` array. -/
theorem C3_time_reshape_witness :
    reshapeTime ⟨2, 3, 4, List.replicate 24 (0 : Int)⟩ =
      some ([2, 4, 3], List.replicate 24 (0 : Int)) :=
  C3_time_reshape ⟨2, 3, 4, List.replicate 24 (0 : Int)⟩ (by simp)

/-- C7: `_eval` in `src/task.py` returns inside the first iteration of
    its loop over data indices, so whatever batches follow the first
    one, the returned predictions and gold labels are exactly those of
    batch 0; on an empty dataset the function falls through the loop
    and returns `None`. -/
theorem C7_eval_first_batch {F T : Type}
    (model : F → T → List (List Int) → List (List Int) × List Nat)
    (f : F) (fs : List F) (t : T) (ts : List T)
    (l : List (List Int)) (ls : List (List (List Int)))
    (h1 : fs.length = ts.length) (h2 : ts.length = ls.length) :
    evalTask model (f :: fs) (t :: ts) (l :: ls) =
      .ok (some ⟨l.map npArgmaxRow, (model f t l).2, l, (model f t l).1⟩) ∧
    evalTask model ([] : List F) ([] : List T) ([] : List (List (List Int))) =
      .ok none := by
  constructor
  · have hci : checkInputs [(f :: fs).length, (t :: ts).length, (l :: ls).length] = true :=
      checkInputs_of_eq (by simp [h1]) (by simp [h2])
    unfold evalTask
    rw [hci, if_neg (by simp)]
  · have hci : checkInputs [(0 : Nat), 0, 0] = true := checkInputs_of_eq rfl rfl
    unfold evalTask
    simp only [List.length_nil]
    rw [hci, if_neg (by simp)]

/-- Witness for C7: a two-batch dataset whose result only reflects the
    first batch. -/
theorem C7_eval_first_batch_witness :
    evalTask (fun (_ : Unit) (_ : Unit) _ => ([[3, 4]], [1]))
        [(), ()] [(), ()] [[[1, 0]], [[0, 1]]] =
      .ok (some ⟨[0], [1], [[1, 0]], [[3, 4]]⟩) :=
  (C7_eval_first_batch (fun (_ : Unit) (_ : Unit) _ => ([[3, 4]], [1]))
    () [()] () [()] [[1, 0]] [[[0, 1]]] rfl rfl).1

/-- C8: in all three driver scripts, an omitted `--config_path`
    argument is replaced by the model-path argument before `main` runs,
    and a provided one is left unchanged. -/
theorem C8_config_path_default (modelPath : String) :
    resolveConfigPath none modelPath = modelPath ∧
    ∀ configPath, resolveConfigPath (some configPath) modelPath = configPath :=
  ⟨rfl, fun _ => rfl⟩

/-- C9: every driver script's `main` starts with the seeding prologue —
    `random.seed(13)`, `np.random.seed(13)`, `torch.manual_seed(13)`
    (plus the CUDA seeding when available) — before any other event, in
    particular before any data loading or training. -/
theorem C9_seed_prefix (m : String) (doTrain doTest cuda fp16 apex : Bool)
    (epochs nF nT nL mF mT mL : Nat) (p q : String) :
    (∃ rest, mainTask m doTrain doTest cuda =
      [Event.seedRandom 13, Event.seedNumpy 13, Event.seedTorch 13] ++
        (if cuda then [Event.seedCudaAll 13] else []) ++ rest) ∧
    (∃ rest, mainTlstm doTrain doTest cuda fp16 apex epochs nF nT nL mF mT mL =
      [Event.seedRandom 13, Event.seedNumpy 13, Event.seedTorch 13] ++
        (if cuda then [Event.seedCudaAll 13] else []) ++ rest) ∧
    (∃ rest, mainMix m doTrain doTest cuda p q =
      [Event.seedRandom 13, Event.seedNumpy 13, Event.seedTorch 13] ++
        (if cuda then [Event.seedCudaAll 13] else []) ++ rest) :=
  ⟨⟨_, rfl⟩, ⟨_, rfl⟩, ⟨_, rfl⟩⟩

/-- C5 counterexample: `"lstm"` belongs to the four advertised model
    variants, yet the mix_features driver's `main` rejects it with an
    assertion error right after seeding, so not every driver script
    accepts the full four-element set. -/
theorem C5_model_variants_counterexample :
    ("lstm" ∈ (["lstm", "tlstm", "clstm", "ctlstm"] : List String)) ∧
    supportedMix "lstm" = false ∧
    mainMix "lstm" true true false "train.pkl" "test.pkl" =
      [Event.seedRandom 13, Event.seedNumpy 13, Event.seedTorch 13,
       Event.assertionError] := by
  refine ⟨by decide, by decide, rfl⟩

/-- C5 amended: `src/task.py` accepts exactly the four variants
    `lstm`, `tlstm`, `clstm`, `ctlstm`, while
    `src/mix_features/task.py` accepts exactly `clstm` and `ctlstm`;
    in both scripts any other value fails the model-type assertion
    right after seeding. -/
theorem C5_model_variants_amended (m : String) (doTrain doTest cuda : Bool)
    (p q : String) :
    (supportedTask m = true ↔
      m = "lstm" ∨ m = "tlstm" ∨ m = "clstm" ∨ m = "ctlstm") ∧
    (supportedMix m = true ↔ m = "clstm" ∨ m = "ctlstm") ∧
    (supportedTask m = false →
      mainTask m doTrain doTest cuda = seedEvents cuda ++ [.assertionError]) ∧
    (supportedMix m = false →
      mainMix m doTrain doTest cuda p q = seedEvents cuda ++ [.assertionError]) := by
  refine ⟨?_, ?_, ?_, ?_⟩
  · unfold supportedTask List.contains
    rw [List.elem_eq_mem, decide_eq_true_eq]
    simp
  · unfold supportedMix List.contains
    rw [List.elem_eq_mem, decide_eq_true_eq]
    simp
  · intro h
    unfold mainTask
    rw [h, if_pos rfl]
  · intro h
    unfold mainMix
    rw [h, if_pos rfl]

/-- Witness for C5's amended statement on the concrete value
    `"tlstm"`, accepted by task.py but rejected by mix_features. -/
theorem C5_model_variants_amended_witness :
    supportedTask "tlstm" = true ∧
    mainMix "tlstm" false false false "p" "q" =
      seedEvents false ++ [Event.assertionError] :=
  ⟨(C5_model_variants_amended "tlstm" false false false "p" "q").1.mpr
      (Or.inr (Or.inl rfl)),
   (C5_model_variants_amended "tlstm" false false false "p" "q").2.2.2 (by decide)⟩

/-- C6: with aligned non-empty data (and fp16 off), the trace of
    `train` in both `src/task.py` and `src/TLSTM/test_tlstm.py` is the
    optimizer setup, the full epoch loop, the evaluation forward
    passes, and then exactly the three metric log events — accuracy,
    micro AUC, macro AUC — in that order at the very end. -/
theorem C6_metric_order (apex : Bool) (epochs nF nT nL : Nat) (sh : Nat → List Nat)
    (h1 : nF = nT) (h2 : nT = nL) (h3 : 0 < nF) :
    trainTask false apex epochs nF nT nL sh =
      (Event.optimizerSetup "AdamW" ::
        (((List.range epochs).flatMap fun e =>
          ((sh e).map fun i => Event.process e i) ++ [Event.logLoss e]) ++
        [Event.evalProcess 0])) ++
      [Event.logMetric .accuracy, Event.logMetric .aucMicro,
       Event.logMetric .aucMacro] ∧
    trainTlstm false apex epochs nF nT nL =
      (Event.optimizerSetup "Adam" ::
        (((List.range epochs).flatMap fun e =>
          ((List.range nF).map fun i => Event.process e i) ++ [Event.logLoss e]) ++
        ((List.range nF).map fun i => Event.evalProcess i))) ++
      [Event.logMetric .accuracy, Event.logMetric .aucMicro,
       Event.logMetric .aucMacro] := by
  have hne : nF ≠ 0 := Nat.pos_iff_ne_zero.mp h3
  constructor
  · unfold trainTask testTask
    rw [checkInputs_of_eq h1 h2]
    simp [hne]
  · unfold trainTlstm evalTlstm
    rw [checkTlstm_of_eq h1 h2]
    simp [hne]

/-- Witness for C6 on a one-epoch, one-batch dataset. -/
theorem C6_metric_order_witness :
    trainTask false false 1 1 1 1 (fun _ => [0]) =
      [Event.optimizerSetup "AdamW", Event.process 0 0, Event.logLoss 0,
       Event.evalProcess 0, Event.logMetric .accuracy,
       Event.logMetric .aucMicro, Event.logMetric .aucMacro] ∧
    trainTlstm false false 1 1 1 1 =
      [Event.optimizerSetup "Adam", Event.process 0 0, Event.logLoss 0,
       Event.evalProcess 0, Event.logMetric .accuracy,
       Event.logMetric .aucMicro, Event.logMetric .aucMacro] :=
  ⟨(C6_metric_order false 1 1 1 1 (fun _ => [0]) rfl rfl (by decide)).1,
   (C6_metric_order false 1 1 1 1 (fun _ => [0]) rfl rfl (by decide)).2⟩

/-- With fp16 off and aligned non-empty data, `train` of test_tlstm.py
    raises nothing, so `main` goes on to save the weights and config. -/
lemma hasError_trainTlstm_false {apex : Bool} {epochs nF nT nL : Nat}
    (h1 : nF = nT) (h2 : nT = nL) (h3 : 0 < nF) :
    hasError (trainTlstm false apex epochs nF nT nL) = false := by
  unfold hasError
  rw [List.any_eq_false]
  intro ev hmem
  rcases mem_trainTlstm_cases h1 h2 hmem with h | ⟨hf, -⟩ | ⟨a, b, rfl⟩ | ⟨a, rfl⟩ | h
  · subst h; simp [isErrorEvent]
  · exact Bool.noConfusion hf
  · simp [isErrorEvent]
  · simp [isErrorEvent]
  · have hne : nF ≠ 0 := Nat.pos_iff_ne_zero.mp h3
    unfold evalTlstm at h
    rw [checkTlstm_of_eq h1 h2, if_neg (by simp), if_neg hne] at h
    rw [List.mem_append] at h
    rcases h with h | h
    · rw [List.mem_map] at h
      obtain ⟨i, -, rfl⟩ := h
      simp [isErrorEvent]
    · simp only [List.mem_cons, List.not_mem_nil, or_false] at h
      rcases h with rfl | rfl | rfl <;> simp [isErrorEvent]

/-- C2 counterexample: in `src/task.py`, `main` with `do_train` and
    `do_test` set only seeds and logs — the full trace is listed below —
    so no data is loaded, no training step runs, and neither the
    weights nor the config are saved. -/
theorem C2_main_sequence_counterexample :
    mainTask "lstm" true true true =
      [Event.seedRandom 13, Event.seedNumpy 13, Event.seedTorch 13,
       Event.seedCudaAll 13, Event.logInfo "start training...",
       Event.logInfo "start test..."] ∧
    Event.saveModelEv ∉ mainTask "lstm" true true true ∧
    Event.saveConfigEv ∉ mainTask "lstm" true true true ∧
    Event.process 0 0 ∉ mainTask "lstm" true true true ∧
    Event.trainerTrain ∉ mainTask "lstm" true true true ∧
    Event.loadPickle "../data/tlstm_sync/data_train.pkl" ∉
      mainTask "lstm" true true true := by
  refine ⟨rfl, ?_, ?_, ?_, ?_, ?_⟩ <;> decide

/-- C2 amended: the linear sequence holds for
    `src/TLSTM/test_tlstm.py`: with `do_train` set, aligned non-empty
    training data and fp16 off, `main` seeds, loads the three training
    pickles, builds the config and the model, runs `train` (which
    performs training steps), then saves the weights and config, and
    only afterwards runs the optional test branch.  In
    `src/mix_features/task.py`, `main` delegates the training loop to
    the trainer object and saves nothing itself, and in `src/task.py`,
    `main` only logs start messages under `do_train`/`do_test`. -/
theorem C2_main_sequence_amended (doTest cuda apex : Bool)
    (epochs nF nT nL mF mT mL : Nat)
    (h1 : nF = nT) (h2 : nT = nL) (h3 : 0 < nF) (h4 : 0 < epochs) :
    mainTlstm true doTest cuda false apex epochs nF nT nL mF mT mL =
      seedEvents cuda ++
      ([Event.loadPickle "../data/tlstm_sync/data_train.pkl",
        Event.loadPickle "../data/tlstm_sync/elapsed_train.pkl",
        Event.loadPickle "../data/tlstm_sync/label_train.pkl",
        Event.initConfig, Event.initModel] ++
       trainTlstm false apex epochs nF nT nL ++
       [Event.saveModelEv, Event.saveConfigEv] ++
       tlstmTestPart doTest mF mT mL) ∧
    Event.process 0 0 ∈ trainTlstm false apex epochs nF nT nL ∧
    (∀ doTr doTe cu, Event.process 0 0 ∉ mainTask "lstm" doTr doTe cu) ∧
    (∀ doTr doTe cu p q m, supportedMix m = true →
      mainMix m doTr doTe cu p q =
        seedEvents cu ++
        ([Event.loadPickle p, Event.loadPickle q,
          Event.createDataLoader, Event.createDataLoader, Event.initModel] ++
         (if doTr then [Event.logInfo "start training...", Event.trainerTrain] else []) ++
         (if doTe then [Event.logInfo "start test...", Event.trainerPredict] else []))) := by
  have hproc : Event.process 0 0 ∈ trainTlstm false apex epochs nF nT nL := by
    unfold trainTlstm
    rw [checkTlstm_of_eq h1 h2, if_neg (by simp), List.mem_cons]
    right
    rw [if_neg (by simp), List.mem_append]
    left
    rw [List.mem_flatMap]
    refine ⟨0, by simpa using h4, ?_⟩
    rw [List.mem_append]
    left
    rw [List.mem_map]
    exact ⟨0, by simpa using h3, rfl⟩
  refine ⟨?_, hproc, ?_, ?_⟩
  · unfold mainTlstm
    rw [if_pos rfl]
    simp only [hasError_trainTlstm_false h1 h2 h3, Bool.false_eq_true, if_false]
  · intro doTr doTe cu h
    unfold mainTask at h
    rw [List.mem_append] at h
    rcases h with h | h
    · unfold seedEvents at h
      rw [List.mem_append] at h
      rcases h with h | h
      · simp only [List.mem_cons, List.not_mem_nil, or_false] at h
        rcases h with h | h | h <;> exact Event.noConfusion h
      · rcases cu with _ | _
        · rw [if_neg (by simp)] at h
          exact List.not_mem_nil _ h
        · rw [if_pos rfl, List.mem_singleton] at h
          exact Event.noConfusion h
    · rcases hsupp : supportedTask "lstm" with _ | _
      · rw [hsupp, if_pos rfl, List.mem_singleton] at h
        exact Event.noConfusion h
      · rw [hsupp, if_neg (by simp), List.mem_append] at h
        rcases h with h | h <;> rcases _hd : doTr <;> rcases _he : doTe <;> simp_all
  · intro doTr doTe cu p q m hm
    unfold mainMix
    rw [hm, if_neg (by simp)]

/-- Witness for C2's amended statement on a one-epoch, one-batch run
    without a test branch. -/
theorem C2_main_sequence_amended_witness :
    mainTlstm true false false false false 1 1 1 1 0 0 0 =
      [Event.seedRandom 13, Event.seedNumpy 13, Event.seedTorch 13,
       Event.loadPickle "../data/tlstm_sync/data_train.pkl",
       Event.loadPickle "../data/tlstm_sync/elapsed_train.pkl",
       Event.loadPickle "../data/tlstm_sync/label_train.pkl",
       Event.initConfig, Event.initModel,
       Event.optimizerSetup "Adam", Event.process 0 0, Event.logLoss 0,
       Event.evalProcess 0, Event.logMetric .accuracy,
       Event.logMetric .aucMicro, Event.logMetric .aucMacro,
       Event.saveModelEv, Event.saveConfigEv] ∧
    Event.process 0 0 ∈ trainTlstm false false 1 1 1 1 :=
  ⟨(C2_main_sequence_amended false false false 1 1 1 1 0 0 0
      rfl rfl (by decide) (by decide)).1,
   (C2_main_sequence_amended false false false 1 1 1 1 0 0 0
      rfl rfl (by decide) (by decide)).2.1⟩

end SeqEHR
